import Mathlib

/-!
# Verification of the `ThemeSwitcher` client component

Shallow embedding of `src/lib/nthul/src/client/theme-switcher/theme-switcher.tsx`.
Pure fragments of the component become Lean functions; the DOM, local storage
and the cookie jar become explicit inputs and outputs of those functions.

Conventions used throughout:
* JavaScript `undefined` / `null` values are represented by `Option`.
* A `DOMTokenList` (`element.classList`) is represented by a `List String`.
  The DOM "ordered set parser" removes duplicate tokens, so a class list never
  contains the same token twice; `classList.remove` deletes the token from the
  set and `classList.add` appends it unless present.
* `DOMTokenList` is a *live* collection and its `forEach` iterates by index,
  re-checking the current length at every step (WebIDL value-iterable /
  `Array.prototype.forEach` semantics).  Removing the token at the current
  index therefore shifts the remaining tokens left and the next token is
  skipped.  `classListForEachRemoveTh` below embeds this index-based loop
  directly.
* JavaScript `String.prototype.split` with a one-character separator is
  embedded as `jsSplit` on `List Char`.
-/

namespace ThemeSwitcherSpec

/-- Modelled from the spec: `DEFAULT_ID`, the module-wide default id constant
imported from `../../constants` (a file of this repository that is not among
the sources here).  The spec fixes only its role — the key used when
`targetId` is absent — not its concrete value, and no theorem below depends on
the value. -/
def DEFAULT_ID : String := "nthul"

/-- The `ThemeState` record from `../../constants` as declared by its
TypeScript type:
`{ theme: string, colorSchemePreference: "light"|"dark"|"system", systemColorScheme: "light"|"dark" }`.
The two scheme fields are plain strings, matching the erased runtime
representation; theorems restrict them to the enumerated literals where a
claim does. -/
structure ThemeState where
  theme : String
  colorSchemePreference : String
  systemColorScheme : String
deriving DecidableEq

/-- A DOM element as far as this component observes it: its class list and its
attributes. -/
structure Element where
  classes : List String
  attrs : List (String × String)
deriving DecidableEq

/-- `element.getAttribute(name)`: the attribute's value, `null` (`none`) when
absent. -/
def getAttribute (e : Element) (name : String) : Option String :=
  (e.attrs.find? (fun p => p.fst == name)).map Prod.snd

/-- `classList.remove(c)` (theme-switcher.tsx:99-100): removes the token `c`
from the token set.  On a duplicate-free list this is ordinary removal of the
single occurrence. -/
def classListRemove (l : List String) (c : String) : List String :=
  l.filter (fun x => !(x == c))

/-- `classList.add(c)` (theme-switcher.tsx:104-105): appends the token unless
it is already present. -/
def classListAdd (l : List String) (c : String) : List String :=
  if c ∈ l then l else l ++ [c]

/-- JavaScript `s.startsWith(pre)`: a prefix test, embedded on character
lists so that it evaluates inside the kernel. -/
def jsStartsWith (s pre : String) : Bool :=
  pre.toList.isPrefixOf s.toList

/-- The loop at theme-switcher.tsx:101-103:
`t.classList.forEach(cls => { if (cls.startsWith("th-")) t.classList.remove(cls); })`.
`DOMTokenList.forEach` iterates by index over the *live* list: step `i` stops
when `i` is no longer below the current length, reads the token now at
position `i`, removes it when it starts with `"th-"`, and always advances to
`i + 1` — so the token that slides into position `i` after a removal is never
examined. -/
def classListForEachRemoveTh (l : List String) (i : Nat) : List String :=
  if h : i < l.length then
    if jsStartsWith (l.get ⟨i, h⟩) "th-" then
      classListForEachRemoveTh (classListRemove l (l.get ⟨i, h⟩)) (i + 1)
    else
      classListForEachRemoveTh l (i + 1)
  else l
termination_by l.length - i
decreasing_by
  · have hle : (classListRemove l (l.get ⟨i, h⟩)).length ≤ l.length :=
      List.length_filter_le _ l
    omega
  · omega

/-- The per-target class update performed by the `targets.forEach` body of
`updateDOM` (theme-switcher.tsx:98-106): remove `"dark"`, remove `"light"`,
run the live-iteration removal of `"th-"`-prefixed classes, then add
`"th-" ++ theme` and the resolved color scheme. -/
def applyClasses (cls : List String) (theme resolved : String) : List String :=
  let cls := classListRemove cls "dark"
  let cls := classListRemove cls "light"
  let cls := classListForEachRemoveTh cls 0
  let cls := classListAdd cls ("th-" ++ theme)
  classListAdd cls resolved

/-- theme-switcher.tsx:88: `csp === "system" ? scs : csp`. -/
def resolvedColorScheme (csp scs : String) : String :=
  if csp = "system" then scs else csp

/-- The outputs of `updateDOM`: the (possibly absent) target element and the
document root element after the class update, and the cookie string written to
`document.cookie`, if any. -/
structure UpdateDOMResult where
  target : Option Element
  documentElement : Element
  cookie : Option String
deriving DecidableEq

/-- `updateDOM` (theme-switcher.tsx:86-109).  `target` stands for
`document.getElementById(targetId ?? DEFAULT_ID)` and `docElem` for
`document.documentElement`.  The cookie is written exactly when
`!dontSync && target?.getAttribute("data-nth") === "next"`; the document root
is updated only when `targetId` is absent (or falsy, i.e. the empty string),
mirroring `targetId ? [target] : [target, document.documentElement]`. -/
def updateDOM (targetId : Option String) (themeState : ThemeState) (dontSync : Bool)
    (target : Option Element) (docElem : Element) : UpdateDOMResult :=
  let theme := themeState.theme
  let csp := themeState.colorSchemePreference
  let scs := themeState.systemColorScheme
  let resolved := resolvedColorScheme csp scs
  let key := targetId.getD DEFAULT_ID
  let shoulCreateCookie : Bool :=
    !dontSync && ((target.bind fun e => getAttribute e "data-nth") == some "next")
  let updateElem := fun (e : Element) => { e with classes := applyClasses e.classes theme resolved }
  let includeDocElem : Bool :=
    match targetId with
    | some tid => tid == ""
    | none => true
  { target := target.map updateElem
    documentElement := if includeDocElem then updateElem docElem else docElem
    cookie :=
      if shoulCreateCookie then
        some (key ++ "=" ++ theme ++ "," ++ resolved ++ "; max-age=31536000; SameSite=Strict;")
      else none }

/-- JavaScript `s.split(sep)` for a one-character separator, on the character
list of `s`.  `"".split(sep)` is `[""]`; a separator at the end yields a
trailing empty component, exactly as in JavaScript. -/
def jsSplit (sep : Char) : List Char → List (List Char)
  | [] => [[]]
  | c :: rest =>
    if c = sep then [] :: jsSplit sep rest
    else
      match jsSplit sep rest with
      | h :: t => (c :: h) :: t
      | [] => [[c]]

/-- `parseState` (theme-switcher.tsx:35-38): split `str ?? ",system"` on
commas; the result is `{ theme: parts[0], colorSchemePreference: parts[1] }`,
where `parts[1]` is `undefined` (`none`) when the input has no comma. -/
def parseState (str : Option String) : String × Option String :=
  let s := str.getD ",system"
  let parts := jsSplit ',' s.toList
  (String.mk (parts.headD []), (parts[1]?).map String.mk)

/-- The storage-event listener installed by `useLoadSyncedState`
(theme-switcher.tsx:48-50): when the event's key equals this instance's key
(`targetId ?? DEFAULT_ID`), merge the parsed new value into the state;
otherwise do nothing.  A parsed `colorSchemePreference` of `undefined` is
represented by the string `"undefined"`, which is observationally equal to
JavaScript `undefined` under every use the component makes of the field
(comparison with `"system"`, template-literal and class-token coercion). -/
def storageListener (targetId : Option String) (eKey : Option String)
    (eNewValue : Option String) (state : ThemeState) : ThemeState :=
  let key := targetId.getD DEFAULT_ID
  if eKey = some key then
    let p := parseState eNewValue
    { state with theme := p.fst, colorSchemePreference := p.snd.getD "undefined" }
  else state

/-- The synchronous setup of `ThemeSwitcher` (theme-switcher.tsx:115-117):
`if (targetId === "") throw new Error("id can not be an empty string")`, then
the shared store is keyed by `targetId ?? DEFAULT_ID`.  The thrown error
becomes `Except.error`; success carries the store key. -/
def themeSwitcherInit (targetId : Option String) : Except String String :=
  if targetId = some "" then Except.error "id can not be an empty string"
  else Except.ok (targetId.getD DEFAULT_ID)

/-- theme-switcher.tsx:129-130: `[theme, colorSchemePreference].join(",")`. -/
def serializeState (theme csp : String) : String :=
  theme ++ "," ++ csp

/-- The local-storage write of the DOM effect (theme-switcher.tsx:127-133):
`if (!dontSync && tInit < Date.now() - 300) localStorage.setItem(key, [theme, colorSchemePreference].join(","))`.
`tInit` is the timestamp recorded by `useLoadSyncedState` at the initial load
(theme-switcher.tsx:45) and `now` is `Date.now()` at the time the effect runs,
both in integer milliseconds.  The result is the `(key, value)` pair written,
or `none` when no write happens. -/
def effectLocalStorageWrite (dontSync : Bool) (tInit now : Int)
    (targetId : Option String) (themeState : ThemeState) : Option (String × String) :=
  if !dontSync && decide (tInit < now - 300) then
    some (targetId.getD DEFAULT_ID,
      serializeState themeState.theme themeState.colorSchemePreference)
  else none

/-- The text of the style rule installed by `modifyTransition`
(theme-switcher.tsx:58-68).  Only the part of `themeTransition` before the
first semicolon reaches the rule (`themeTransition.split(";")[0]`); the
selector is `"*"` when `targetId` is absent or falsy. -/
def modifyTransitionRule (themeTransition : Option String) (targetId : Option String) : String :=
  let tt := themeTransition.getD "none"
  let transition :=
    "transition: " ++ String.mk ((jsSplit ';' tt.toList).headD []) ++ " !important;"
  let targetSelector :=
    match targetId with
    | some tid =>
      if tid = "" then "*"
      else "#" ++ tid ++ ",#" ++ tid ++ " *,#" ++ tid ++ " ~ *,#" ++ tid ++ " ~ * *"
    | none => "*"
  targetSelector ++ "\x7b-webkit-" ++ transition ++ "-moz-" ++ transition ++ "-o-" ++
    transition ++ "-ms-" ++ transition ++ transition ++ "\x7d"

/-! ## Helper lemmas -/

set_option maxRecDepth 10000

theorem toList_append (a b : String) : (a ++ b).toList = a.toList ++ b.toList :=
  String.data_append a b

theorem mk_toList (s : String) : String.mk s.toList = s := rfl

theorem jsSplit_ne_nil (sep : Char) (l : List Char) : jsSplit sep l ≠ [] := by
  induction l with
  | nil => simp [jsSplit]
  | cons c rest ih =>
    simp only [jsSplit]
    by_cases h : c = sep
    · simp [h]
    · simp only [if_neg h]
      rcases hr : jsSplit sep rest with _ | ⟨hd, t⟩
      · exact absurd hr ih
      · simp

theorem jsSplit_no_sep (sep : Char) (b : List Char) (h : sep ∉ b) : jsSplit sep b = [b] := by
  induction b with
  | nil => rfl
  | cons c rest ih =>
    have hc : ¬c = sep := by
      intro hEq
      exact h (hEq ▸ List.mem_cons_self c rest)
    have hrest : sep ∉ rest := fun hm => h (List.mem_cons_of_mem c hm)
    simp only [jsSplit, if_neg hc, ih hrest]

theorem jsSplit_append (sep : Char) (a b : List Char) (h : sep ∉ a) :
    jsSplit sep (a ++ sep :: b) = a :: jsSplit sep b := by
  induction a with
  | nil => simp [jsSplit]
  | cons x a2 ih =>
    have hx : ¬x = sep := by
      intro hEq
      exact h (hEq ▸ List.mem_cons_self x a2)
    have ha2 : sep ∉ a2 := fun hm => h (List.mem_cons_of_mem x hm)
    simp only [List.cons_append, jsSplit, List.append_eq, if_neg hx, ih ha2]

theorem jsSplit_headD_takeWhile (sep : Char) (l : List Char) :
    (jsSplit sep l).headD [] = l.takeWhile (fun c => !(c == sep)) := by
  induction l with
  | nil => rfl
  | cons c rest ih =>
    by_cases h : c = sep
    · subst h
      simp [jsSplit, List.takeWhile_cons]
    · have hp : (fun x => !(x == sep)) c = true := by simp [h]
      simp only [jsSplit, if_neg h, List.takeWhile_cons, hp, if_pos]
      rcases hr : jsSplit sep rest with _ | ⟨hd, t⟩
      · exact absurd hr (jsSplit_ne_nil sep rest)
      · rw [hr] at ih
        simp only [List.headD_cons] at ih ⊢
        simp [ih]

theorem mem_classListForEachRemoveTh (c : String) (hc : jsStartsWith c "th-" = false) :
    ∀ n l i, l.length - i ≤ n → c ∈ l → c ∈ classListForEachRemoveTh l i := by
  intro n
  induction n with
  | zero =>
    intro l i hn hmem
    have hge : ¬i < l.length := by omega
    rw [classListForEachRemoveTh]
    simp [hge, hmem]
  | succ n ih =>
    intro l i hn hmem
    rw [classListForEachRemoveTh]
    by_cases hi : i < l.length
    · simp only [dif_pos hi]
      by_cases hth : jsStartsWith (l.get ⟨i, hi⟩) "th-" = true
      · simp only [if_pos hth]
        have hne : ¬c = l[i] := by
          intro hEq
          have hcth : jsStartsWith c "th-" = true := by
            rw [hEq]
            simpa using hth
          rw [hcth] at hc
          exact Bool.noConfusion hc
        have hmem2 : c ∈ classListRemove l (l.get ⟨i, hi⟩) := by
          simp [classListRemove, hmem, hne]
        have hlen : (classListRemove l (l.get ⟨i, hi⟩)).length ≤ l.length :=
          List.length_filter_le _ l
        exact ih _ (i + 1) (by omega) hmem2
      · simp only [if_neg hth]
        exact ih l (i + 1) (by omega) hmem
    · simp [hi, hmem]

theorem mem_applyClasses (c : String) (cls : List String) (theme resolved : String)
    (hmem : c ∈ cls) (hdark : c ≠ "dark") (hlight : c ≠ "light")
    (hth : jsStartsWith c "th-" = false) : c ∈ applyClasses cls theme resolved := by
  have h1 : c ∈ classListRemove cls "dark" := by simp [classListRemove, hmem, hdark]
  have h2 : c ∈ classListRemove (classListRemove cls "dark") "light" := by
    simp [classListRemove] at h1 ⊢
    exact ⟨h1.1, hlight, h1.2⟩
  have h3 : c ∈ classListForEachRemoveTh (classListRemove (classListRemove cls "dark") "light") 0 :=
    mem_classListForEachRemoveTh c hth
      (classListRemove (classListRemove cls "dark") "light").length
      (classListRemove (classListRemove cls "dark") "light") 0 (by omega) h2
  have h4 : ∀ (l : List String) (d : String), c ∈ l → c ∈ classListAdd l d := by
    intro l d hl
    unfold classListAdd
    split
    · exact hl
    · exact List.mem_append_left _ hl
  exact h4 _ _ (h4 _ _ h3)

/-! ## Claim theorems -/

/-- C2: for every theme state whose `colorSchemePreference` and
`systemColorScheme` fields range over the enumerated literals, the resolved
color scheme computed by `updateDOM` equals `systemColorScheme` when the
preference is `"system"`, and equals `colorSchemePreference` otherwise. -/
theorem resolvedColorScheme_spec (csp scs : String)
    (_hcsp : csp = "light" ∨ csp = "dark" ∨ csp = "system")
    (_hscs : scs = "light" ∨ scs = "dark") :
    (csp = "system" → resolvedColorScheme csp scs = scs) ∧
    (csp ≠ "system" → resolvedColorScheme csp scs = csp) := by
  constructor
  · intro h
    simp [resolvedColorScheme, h]
  · intro h
    simp [resolvedColorScheme, h]

theorem resolvedColorScheme_spec_witness : resolvedColorScheme "system" "dark" = "dark" :=
  (resolvedColorScheme_spec "system" "dark" (Or.inr (Or.inr rfl)) (Or.inr rfl)).1 rfl

/-- C3: serializing a theme (containing no comma) together with a
`colorSchemePreference` literal as the comma-joined persisted string and then
applying `parseState` yields the original pair. -/
theorem serialize_parseState_roundtrip (theme csp : String)
    (htheme : ',' ∉ theme.toList)
    (hcsp : csp = "light" ∨ csp = "dark" ∨ csp = "system") :
    parseState (some (serializeState theme csp)) = (theme, some csp) := by
  have hcsp2 : ',' ∉ csp.toList := by
    rcases hcsp with h | h | h <;> subst h <;> decide
  have hlist : (serializeState theme csp).toList = theme.toList ++ ',' :: csp.toList := by
    simp [serializeState, toList_append]
  simp only [parseState, Option.getD_some, hlist,
    jsSplit_append ',' theme.toList csp.toList htheme,
    jsSplit_no_sep ',' csp.toList hcsp2]
  simp [mk_toList]

theorem serialize_parseState_roundtrip_witness :
    parseState (some (serializeState "ocean" "dark")) = ("ocean", some "dark") :=
  serialize_parseState_roundtrip "ocean" "dark" (by decide) (Or.inr (Or.inl rfl))

/-- C4: constructing `ThemeSwitcher` with an explicitly empty `targetId`
raises the configuration error synchronously, and for every other `targetId`
(absent, or any non-empty string) no error is raised. -/
theorem themeSwitcher_empty_targetId_errors :
    themeSwitcherInit (some "") = Except.error "id can not be an empty string" ∧
    ∀ targetId : Option String, targetId ≠ some "" →
      (themeSwitcherInit targetId).isOk = true := by
  constructor
  · simp [themeSwitcherInit]
  · intro t ht
    simp [themeSwitcherInit, ht, Except.isOk, Except.toBool]

theorem themeSwitcher_empty_targetId_errors_witness :
    (themeSwitcherInit (some "box")).isOk = true :=
  themeSwitcher_empty_targetId_errors.2 (some "box") (by decide)

/-- C5: `updateDOM` writes a cookie exactly when synchronization is enabled
(`dontSync = false`) and the target element carries `data-nth="next"`; the
cookie is `key=<theme>,<resolvedScheme>` with `max-age=31536000` and
`SameSite=Strict`, and in each negative case no cookie is written. -/
theorem updateDOM_cookie_iff (targetId : Option String) (ts : ThemeState)
    (dontSync : Bool) (target : Option Element) (docElem : Element) :
    (dontSync = false ∧ (target.bind fun e => getAttribute e "data-nth") = some "next" →
      (updateDOM targetId ts dontSync target docElem).cookie =
        some ((targetId.getD DEFAULT_ID) ++ "=" ++ ts.theme ++ "," ++
          resolvedColorScheme ts.colorSchemePreference ts.systemColorScheme ++
          "; max-age=31536000; SameSite=Strict;")) ∧
    ((target.bind fun e => getAttribute e "data-nth") ≠ some "next" →
      (updateDOM targetId ts dontSync target docElem).cookie = none) ∧
    (dontSync = true →
      (updateDOM targetId ts dontSync target docElem).cookie = none) := by
  refine ⟨?_, ?_, ?_⟩
  · rintro ⟨hd, hattr⟩
    simp [updateDOM, hd, hattr]
  · intro hattr
    simp [updateDOM, hattr]
  · intro hd
    simp [updateDOM, hd]

theorem updateDOM_cookie_iff_witness :
    (updateDOM (some "box") ⟨"ocean", "dark", "light"⟩ false
      (some ⟨[], [("data-nth", "next")]⟩) ⟨[], []⟩).cookie =
      some "box=ocean,dark; max-age=31536000; SameSite=Strict;" :=
  ((updateDOM_cookie_iff (some "box") ⟨"ocean", "dark", "light"⟩ false
      (some ⟨[], [("data-nth", "next")]⟩) ⟨[], []⟩).1 ⟨rfl, by decide⟩).trans (by decide)

/-- C6: with synchronization enabled, the DOM effect writes the serialized
state to local storage exactly when the current time exceeds the recorded
initial-load timestamp `tInit` by more than the 300 ms debounce window; a run
within the window performs no write. -/
theorem effect_localStorage_debounce (tInit now : Int) (targetId : Option String)
    (ts : ThemeState) :
    (effectLocalStorageWrite false tInit now targetId ts =
        some (targetId.getD DEFAULT_ID, serializeState ts.theme ts.colorSchemePreference) ↔
      now - tInit > 300) ∧
    (now - tInit ≤ 300 → effectLocalStorageWrite false tInit now targetId ts = none) := by
  constructor
  · constructor
    · intro h
      by_contra hle
      simp [effectLocalStorageWrite, show ¬tInit < now - 300 by omega] at h
    · intro h
      simp [effectLocalStorageWrite, show tInit < now - 300 by omega, serializeState]
  · intro h
    simp [effectLocalStorageWrite, show ¬tInit < now - 300 by omega]

theorem effect_localStorage_debounce_witness :
    effectLocalStorageWrite false 0 100 (some "box") ⟨"ocean", "dark", "light"⟩ = none :=
  (effect_localStorage_debounce 0 100 (some "box") ⟨"ocean", "dark", "light"⟩).2 (by decide)

/-- C7: `parseState` applied to a missing (`null`/`undefined`) value returns
the sentinel default: empty theme and the `"system"` preference. -/
theorem parseState_none_default : parseState none = ("", some "system") := by decide

/-- C8: a storage notification whose key differs from this instance's key
(`targetId`, or the default id when `targetId` is absent) leaves the theme
state completely unchanged. -/
theorem storageListener_other_key_noop (targetId : Option String)
    (eKey eNewValue : Option String) (state : ThemeState)
    (h : eKey ≠ some (targetId.getD DEFAULT_ID)) :
    storageListener targetId eKey eNewValue state = state := by
  simp [storageListener, h]

theorem storageListener_other_key_noop_witness :
    storageListener (some "box") (some "other") (some "ocean,dark") ⟨"a", "dark", "light"⟩ =
      ⟨"a", "dark", "light"⟩ :=
  storageListener_other_key_noop (some "box") (some "other") (some "ocean,dark")
    ⟨"a", "dark", "light"⟩ (by decide)

/-- C9: two `themeTransition` props that agree on the part before the first
semicolon produce exactly the same injected CSS rule text, so nothing after
the first semicolon ever reaches the installed rule. -/
theorem modifyTransition_injection_blocked (t1 t2 : String) (targetId : Option String)
    (h : t1.toList.takeWhile (fun c => !(c == ';')) =
      t2.toList.takeWhile (fun c => !(c == ';'))) :
    modifyTransitionRule (some t1) targetId = modifyTransitionRule (some t2) targetId := by
  simp only [modifyTransitionRule, Option.getD_some]
  rw [jsSplit_headD_takeWhile, jsSplit_headD_takeWhile, h]

theorem modifyTransition_injection_blocked_witness :
    modifyTransitionRule (some "all .3s; background: red") (some "box") =
      modifyTransitionRule (some "all .3s") (some "box") :=
  modifyTransition_injection_blocked "all .3s; background: red" "all .3s" (some "box") (by decide)

/-- C10: `updateDOM` removes only classes that are literally `"dark"` or
`"light"` or start with `"th-"`; every other class present on a target before
the call is still present afterwards, on the target element as well as on the
document root. -/
theorem updateDOM_preserves_unrelated_classes (targetId : Option String) (ts : ThemeState)
    (dontSync : Bool) (e docElem : Element) (c : String)
    (hdark : c ≠ "dark") (hlight : c ≠ "light") (hth : jsStartsWith c "th-" = false) :
    (c ∈ e.classes → ∀ e2,
      (updateDOM targetId ts dontSync (some e) docElem).target = some e2 → c ∈ e2.classes) ∧
    (c ∈ docElem.classes →
      c ∈ (updateDOM targetId ts dontSync (some e) docElem).documentElement.classes) := by
  constructor
  · intro hmem e2 he2
    simp only [updateDOM, Option.map_some', Option.some.injEq] at he2
    subst he2
    exact mem_applyClasses c e.classes ts.theme _ hmem hdark hlight hth
  · intro hmem
    simp only [updateDOM]
    split
    · exact mem_applyClasses c docElem.classes ts.theme _ hmem hdark hlight hth
    · exact hmem

theorem updateDOM_preserves_unrelated_classes_witness :
    "keep" ∈ (updateDOM none ⟨"ocean", "dark", "light"⟩ false
      (some ⟨["keep"], []⟩) ⟨["keep", "th-old"], []⟩).documentElement.classes :=
  (updateDOM_preserves_unrelated_classes none ⟨"ocean", "dark", "light"⟩ false
    ⟨["keep"], []⟩ ⟨["keep", "th-old"], []⟩ "keep"
    (by decide) (by decide) (by decide)).2 (by decide)

/-- C1 (failing evaluation): on a target that already carries the two adjacent
classes `"th-a"` and `"th-b"`, applying the state
`{theme := "ocean", colorSchemePreference := "dark", systemColorScheme := "light"}`
leaves the target with the class list `["th-b", "th-ocean", "dark"]` — two
`"th-"`-prefixed classes, not one.  `DOMTokenList.forEach` iterates the live
list by index, so removing `"th-a"` at index 0 shifts `"th-b"` to index 0 and
the loop, now at index 1, never examines it. -/
theorem updateDOM_live_forEach_leaves_stale_th_class :
    (updateDOM (some "box") ⟨"ocean", "dark", "light"⟩ false
      (some ⟨["th-a", "th-b"], []⟩) ⟨[], []⟩).target =
      some ⟨["th-b", "th-ocean", "dark"], []⟩ ∧
    ((updateDOM (some "box") ⟨"ocean", "dark", "light"⟩ false
      (some ⟨["th-a", "th-b"], []⟩) ⟨[], []⟩).target.map
        (fun e => e.classes.countP (fun c => jsStartsWith c "th-"))) = some 2 := by
  have hclasses : applyClasses ["th-a", "th-b"] "ocean" "dark" = ["th-b", "th-ocean", "dark"] := by
    simp [applyClasses, classListForEachRemoveTh, classListRemove, classListAdd, jsStartsWith]
  have htarget : (updateDOM (some "box") ⟨"ocean", "dark", "light"⟩ false
      (some ⟨["th-a", "th-b"], []⟩) ⟨[], []⟩).target =
      some ⟨["th-b", "th-ocean", "dark"], []⟩ := by
    simp only [updateDOM, Option.map_some']
    rw [show resolvedColorScheme "dark" "light" = "dark" from rfl]
    rw [hclasses]
  refine ⟨htarget, ?_⟩
  rw [htarget]
  decide

end ThemeSwitcherSpec
